import Mathlib

/-!
Verification of the session-establishment / state-synchronization protocol of a
two-player browser game repository (a paddle game `PongGame` and a grid-chase
game `MultiSnake`, both in `src/PongGame.tsx`).

The TypeScript source is shallowly embedded: pure functions become Lean
functions, JS numbers become `ℚ` (all arithmetic used is exact) or `ℤ`/`ℕ`
where the source only ever adds integers, and the stateful handlers become
explicit state-passing functions.  Library calls (`pako.gzip`, `JSON.parse`,
`Math.random`) are taken as parameters; `btoa`/`atob` are modelled by a
concrete base64 implementation over byte lists.
-/

namespace Pong2P

/-! ## Signaling codec (`encodeForURL` / `decodeFromURL`, PongGame.tsx 48-63 and 1224-1239) -/

/-- The standard base64 alphabet used by `btoa`/`atob`. -/
def b64Alphabet : List Char :=
  ['A','B','C','D','E','F','G','H','I','J','K','L','M','N','O','P',
   'Q','R','S','T','U','V','W','X','Y','Z',
   'a','b','c','d','e','f','g','h','i','j','k','l','m','n','o','p',
   'q','r','s','t','u','v','w','x','y','z',
   '0','1','2','3','4','5','6','7','8','9','+','/']

/-- Character of a six-bit value. -/
def b64CharOf (n : Nat) : Char := b64Alphabet.getD n '?'

/-- Six-bit value of an alphabet character (`none` off-alphabet, as `atob` rejects). -/
def b64IndexOf (c : Char) : Option Nat := b64Alphabet.findIdx? (fun x => x == c)

/-- One full three-byte base64 group (four alphabet characters). -/
def encGroup3 (a b c : Nat) : List Char :=
  [b64CharOf (a / 4), b64CharOf (a % 4 * 16 + b / 16),
   b64CharOf (b % 16 * 4 + c / 64), b64CharOf (c % 64)]

/-- Trailing two-byte group, one padding character. -/
def encGroup2 (a b : Nat) : List Char :=
  [b64CharOf (a / 4), b64CharOf (a % 4 * 16 + b / 16), b64CharOf (b % 16 * 4), '=']

/-- Trailing one-byte group, two padding characters. -/
def encGroup1 (a : Nat) : List Char :=
  [b64CharOf (a / 4), b64CharOf (a % 4 * 16), '=', '=']

/-- `btoa` on a byte list (the source feeds it `String.fromCharCode(...bytes)`). -/
def base64Encode : List Nat → List Char
  | [] => []
  | [a] => encGroup1 a
  | [a, b] => encGroup2 a b
  | a :: b :: c :: rest => encGroup3 a b c ++ base64Encode rest

/-- `atob` followed by `charCodeAt` extraction: four-character groups back to bytes,
forgiving about the discarded low bits before padding, `none` on off-alphabet
input or a length that is not a multiple of four. -/
def base64Decode : List Char → Option (List Nat)
  | [] => some []
  | c1 :: c2 :: c3 :: c4 :: rest =>
    match b64IndexOf c1, b64IndexOf c2 with
    | some v1, some v2 =>
      if c3 = '=' ∧ c4 = '=' ∧ rest = [] then
        some [v1 * 4 + v2 / 16]
      else if c4 = '=' ∧ rest = [] then
        match b64IndexOf c3 with
        | some v3 => some [v1 * 4 + v2 / 16, v2 % 16 * 16 + v3 / 4]
        | none => none
      else
        match b64IndexOf c3, b64IndexOf c4 with
        | some v3, some v4 =>
          (base64Decode rest).map
            (fun tail => (v1 * 4 + v2 / 16) :: (v2 % 16 * 16 + v3 / 4) :: (v3 % 4 * 64 + v4) :: tail)
        | _, _ => none
    | _, _ => none
  | _ => none

/-- The encoder's per-character global replacements: plus becomes dash and slash
becomes underscore. -/
def urlSafeEncodeChar (c : Char) : Char :=
  if c = '+' then '-' else if c = '/' then '_' else c

/-- The decoder's per-character global replacements: dash back to plus and
underscore back to slash. -/
def urlSafeDecodeChar (c : Char) : Char :=
  if c = '-' then '+' else if c = '_' then '/' else c

/-- The encoder's final replace of the trailing padding run: remove the maximal
trailing run of padding characters. -/
def stripEq : List Char → List Char
  | [] => []
  | c :: cs => if c = '=' ∧ stripEq cs = [] then [] else c :: stripEq cs

/-- `while (base64.length % 4) base64 += "="`: restore padding to a multiple of four. -/
def padEq (s : List Char) : List Char :=
  s ++ List.replicate ((4 - s.length % 4) % 4) '='

/-- A session description as built by the negotiator: `sdp` and `type` fields. -/
structure SessionDescription where
  sdp : String
  descType : String
deriving DecidableEq, Repr

/-- `encodeForURL` (PongGame.tsx 48-53): stringify, gzip, base64, URL-safe
substitution, strip padding.  `stringify` and `gzip` stand for `JSON.stringify`
and `pako.gzip`. -/
def encodeForURL (stringify : SessionDescription → String) (gzip : String → List Nat)
    (data : SessionDescription) : List Char :=
  stripEq ((base64Encode (gzip (stringify data))).map urlSafeEncodeChar)

/-- `decodeFromURL` (PongGame.tsx 55-63): undo the substitution, re-pad, base64
decode, ungzip, parse.  `ungzip` and `parse` stand for `pako.ungzip` and
`JSON.parse`, fallible. -/
def decodeFromURL (parse : String → Option SessionDescription)
    (ungzip : List Nat → Option String) (encoded : List Char) : Option SessionDescription :=
  match base64Decode (padEq (encoded.map urlSafeDecodeChar)) with
  | none => none
  | some bytes =>
    match ungzip bytes with
    | none => none
    | some str => parse str

/-! ## Shared protocol vocabulary -/

/-- The game phase union of both components: `idle | lobby | countdown | playing`
for PongGame (line 31), plus `over` which only MultiSnake has (line 1206). -/
inductive GamePhase where
  | idle
  | lobby
  | countdown
  | playing
  | over
deriving DecidableEq, Repr, Fintype

/-- A peer's role: the source's `"none" | "host" | "guest"`. -/
inductive Role where
  | none
  | host
  | guest
deriving DecidableEq, Repr, Fintype

/-! ## Paddle game world state and simulation (PongGame.tsx 33-39, 116-127, 155-181, 564-658) -/

def CANVAS_WIDTH : ℚ := 800

def CANVAS_HEIGHT : ℚ := 560

def PADDLE_WIDTH : ℚ := 60

def PADDLE_HEIGHT : ℚ := 88

def BALL_SIZE : ℚ := 16

def DEFAULT_BALL_SPEED : ℚ := 5

def PADDLE_SPEED : ℚ := 8

/-- `GameState` of PongGame (lines 65-71), ball fields flattened. -/
structure PongState where
  ballX : ℚ
  ballY : ℚ
  ballVX : ℚ
  ballVY : ℚ
  paddle1Y : ℚ
  paddle2Y : ℚ
  score1 : ℤ
  score2 : ℤ
deriving DecidableEq, Repr

/-- The initial `gameStateRef` value (lines 116-127). -/
def pongInitState : PongState :=
  { ballX := CANVAS_WIDTH / 2, ballY := CANVAS_HEIGHT / 2
    ballVX := DEFAULT_BALL_SPEED, ballVY := DEFAULT_BALL_SPEED / 2
    paddle1Y := CANVAS_HEIGHT / 2 - PADDLE_HEIGHT / 2
    paddle2Y := CANVAS_HEIGHT / 2 - PADDLE_HEIGHT / 2
    score1 := 0, score2 := 0 }

/-- `resetBall(direction)` (lines 155-162); `rnd` stands for the
`Math.random() > 0.5` draw choosing the vertical sign. -/
def resetBall (speed : ℚ) (dir : ℚ) (rnd : Bool) (s : PongState) : PongState :=
  { s with ballX := CANVAS_WIDTH / 2, ballY := CANVAS_HEIGHT / 2
           ballVX := dir * speed
           ballVY := speed / 2 * (if rnd then 1 else -1) }

/-- `resetState()` (lines 164-181): world state back to defaults with the
current ball speed. -/
def pongResetState (speed : ℚ) : PongState :=
  { ballX := CANVAS_WIDTH / 2, ballY := CANVAS_HEIGHT / 2
    ballVX := speed, ballVY := speed / 2
    paddle1Y := CANVAS_HEIGHT / 2 - PADDLE_HEIGHT / 2
    paddle2Y := CANVAS_HEIGHT / 2 - PADDLE_HEIGHT / 2
    score1 := 0, score2 := 0 }

/-- Host keyboard movement of paddle 1 in `updateGame` (lines 569-577),
applied on every frame regardless of phase. -/
def pongApplyKeys (keyUp keyDown : Bool) (s : PongState) : PongState :=
  let s1 := if keyUp then { s with paddle1Y := max 0 (s.paddle1Y - PADDLE_SPEED) } else s
  if keyDown then
    { s1 with paddle1Y := min (CANVAS_HEIGHT - PADDLE_HEIGHT) (s1.paddle1Y + PADDLE_SPEED) }
  else s1

/-- Ball positional integration (lines 580-581). -/
def pongMoveBall (s : PongState) : PongState :=
  { s with ballX := s.ballX + s.ballVX, ballY := s.ballY + s.ballVY }

/-- Top and bottom wall reflection (lines 583-588): flips the vertical velocity,
without clamping the position. -/
def pongWallBounce (s : PongState) : PongState :=
  if s.ballY ≤ BALL_SIZE / 2 ∨ s.ballY ≥ CANVAS_HEIGHT - BALL_SIZE / 2 then
    { s with ballVY := -s.ballVY }
  else s

/-- Left paddle collision (lines 590-599). -/
def pongLeftPaddleBounce (s : PongState) : PongState :=
  if s.ballX - BALL_SIZE / 2 ≤ 20 + PADDLE_WIDTH ∧ s.ballX - BALL_SIZE / 2 ≥ 20 ∧
      s.ballY ≥ s.paddle1Y ∧ s.ballY ≤ s.paddle1Y + PADDLE_HEIGHT ∧ s.ballVX < 0 then
    { s with ballVX := |s.ballVX|, ballX := 20 + PADDLE_WIDTH + BALL_SIZE / 2 }
  else s

/-- Right paddle collision (lines 601-610). -/
def pongRightPaddleBounce (s : PongState) : PongState :=
  if s.ballX + BALL_SIZE / 2 ≥ CANVAS_WIDTH - 20 - PADDLE_WIDTH ∧
      s.ballX + BALL_SIZE / 2 ≤ CANVAS_WIDTH - 20 ∧
      s.ballY ≥ s.paddle2Y ∧ s.ballY ≤ s.paddle2Y + PADDLE_HEIGHT ∧ s.ballVX > 0 then
    { s with ballVX := -|s.ballVX|, ballX := CANVAS_WIDTH - 20 - PADDLE_WIDTH - BALL_SIZE / 2 }
  else s

/-- Scoring checks (lines 612-619): the second check reads the possibly
already-reset x, exactly as the source's two sequential `if`s do. -/
def pongScoreStep (speed : ℚ) (rnd : Bool) (s : PongState) : PongState :=
  let s1 := if s.ballX < 0 then resetBall speed 1 rnd { s with score2 := s.score2 + 1 } else s
  if s1.ballX > CANVAS_WIDTH then resetBall speed (-1) rnd { s1 with score1 := s1.score1 + 1 }
  else s1

/-- One host frame of `updateGame` (lines 564-628), state part: keyboard paddle
movement always, ball physics and scoring only while the phase is `playing`.
`speed` is `ballSpeedRef.current` and `rnd` the `Math.random` draw of a
potential `resetBall`. -/
def updateGame (phase : GamePhase) (keyUp keyDown : Bool) (speed : ℚ) (rnd : Bool)
    (s : PongState) : PongState :=
  let s' := pongApplyKeys keyUp keyDown s
  if phase = .playing then
    pongScoreStep speed rnd
      (pongRightPaddleBounce (pongLeftPaddleBounce (pongWallBounce (pongMoveBall s'))))
  else s'

/-! ## Paddle game typed channel messages (PongGame.tsx 398-447) -/

/-- The two guest input directions. -/
inductive InputDir where
  | up
  | down
deriving DecidableEq, Repr, Fintype

/-- The well-formed channel messages of the paddle game. -/
inductive PongMsg where
  | gameState (st : PongState)
  | input (dir : InputDir)
  | hostFace (data : String)
  | guestFace (data : String)
  | phaseMsg (ph : GamePhase) (cd : Option ℤ)
  | settings (ballSpeed : ℚ)
deriving DecidableEq, Repr

/-- The per-peer session state the paddle game's `onmessage` handler touches:
the world-state ref, the displayed phase/countdown/scores, the shared ball
speed and the face assets. -/
structure PongSession where
  gs : PongState
  phase : GamePhase
  countdownDisp : ℤ
  ballSpeed : ℚ
  dispScore1 : ℤ
  dispScore2 : ℤ
  hostFace : Option String
  guestFace : Option String
deriving DecidableEq, Repr

/-- `setupDataChannel`'s `channel.onmessage` (lines 398-447) on a well-formed
message.  Note the `input` branch mutates the world state immediately, in the
network callback, with no phase check. -/
def pongHandleMessage (role : Role) (sess : PongSession) : PongMsg → PongSession
  | .gameState st =>
    if role = .guest then
      let sess' := { sess with gs := st }
      if st.score1 ≠ sess.dispScore1 ∨ st.score2 ≠ sess.dispScore2 then
        { sess' with dispScore1 := st.score1, dispScore2 := st.score2 }
      else sess'
    else sess
  | .input d =>
    if role = .host then
      match d with
      | .up =>
        { sess with gs := { sess.gs with paddle2Y := max 0 (sess.gs.paddle2Y - PADDLE_SPEED) } }
      | .down =>
        { sess with gs := { sess.gs with
            paddle2Y := min (CANVAS_HEIGHT - PADDLE_HEIGHT) (sess.gs.paddle2Y + PADDLE_SPEED) } }
    else sess
  | .hostFace dta => { sess with hostFace := some dta }
  | .guestFace dta => { sess with guestFace := some dta }
  | .phaseMsg ph cd =>
    if ph = .countdown then { sess with phase := .countdown, countdownDisp := cd.getD 3 }
    else if ph = .playing then { sess with phase := .playing }
    else sess
  | .settings sp => { sess with ballSpeed := sp }

/-- A guest processing a sequence of inbound `gameState` snapshots in arrival
order. -/
def guestApplySnapshots (sess : PongSession) (snaps : List PongState) : PongSession :=
  snaps.foldl (fun acc st => pongHandleMessage .guest acc (.gameState st)) sess

/-! ## Chase game world state and simulation (PongGame.tsx 1190-1217, 1299-1340, 1447-1532) -/

def COLS : ℤ := 24

def ROWS : ℤ := 16

/-- A grid cell. -/
structure Cell where
  x : ℤ
  y : ℤ
deriving DecidableEq, Repr

/-- Movement directions of the chase game. -/
inductive Direction where
  | up
  | down
  | left
  | right
deriving DecidableEq, Repr, Fintype

/-- The `opposite` record (lines 1241-1246). -/
def opposite : Direction → Direction
  | .up => .down
  | .down => .up
  | .left => .right
  | .right => .left

/-- `GameState` of MultiSnake (lines 1208-1217). -/
structure SnakeState where
  snake1 : List Cell
  snake2 : List Cell
  dir1 : Direction
  dir2 : Direction
  food : Cell
  score1 : ℤ
  score2 : ℤ
  phase : GamePhase
deriving DecidableEq, Repr

/-- The initial `gameStateRef` value of MultiSnake (lines 1278-1295). -/
def snakeInitState : SnakeState :=
  { snake1 := [⟨4, 8⟩, ⟨3, 8⟩, ⟨2, 8⟩]
    snake2 := [⟨COLS - 5, 8⟩, ⟨COLS - 4, 8⟩, ⟨COLS - 3, 8⟩]
    dir1 := .right, dir2 := .left
    food := ⟨12, 6⟩
    score1 := 0, score2 := 0
    phase := .idle }

/-- The `delta` record inside `advance` (lines 1453-1458). -/
def deltaOf : Direction → Cell
  | .up => ⟨0, -1⟩
  | .down => ⟨0, 1⟩
  | .left => ⟨-1, 0⟩
  | .right => ⟨1, 0⟩

/-- The proposed next head of `advance` (line 1459): current head plus delta.
The source reads `snake[0]`; a default is supplied for the empty list, which
never occurs in play. -/
def proposedHead (snake : List Cell) (d : Direction) : Cell :=
  let h := snake.headD ⟨0, 0⟩
  ⟨h.x + (deltaOf d).x, h.y + (deltaOf d).y⟩

/-- The wall test of `advance` (lines 1460-1461), on the proposed next head. -/
def hitsWall (c : Cell) : Bool :=
  decide (c.x < 0 ∨ COLS ≤ c.x ∨ c.y < 0 ∨ ROWS ≤ c.y)

/-- `anyCrash` (lines 1470-1494): wall exits, self collisions, head-to-head
collision and body collisions, all evaluated on the proposed next heads. -/
def snakeCrash (d1 d2 : Direction) (s : SnakeState) : Bool :=
  let n1 := proposedHead s.snake1 d1
  let n2 := proposedHead s.snake2 d2
  hitsWall n1 || hitsWall n2 ||
    decide (n1 ∈ s.snake1) || decide (n2 ∈ s.snake2) ||
    decide (n1 = n2) || decide (n1 ∈ s.snake2) || decide (n2 ∈ s.snake1)

/-- What one invocation of `stepGame` leaves behind: the world state, the value
of `gamePhaseRef`, whether the step interval is still running, and the
state snapshots sent over the channel during the call. -/
structure StepResult where
  state : SnakeState
  phaseRef : GamePhase
  timerOn : Bool
  sent : List SnakeState
deriving DecidableEq, Repr

/-- `stepGame` (lines 1447-1532).  `pf` stands for `placeFood` (whose
`Math.random` retry loop is external), `phase` for `gamePhaseRef.current`,
`d1`/`d2` for `dir1Ref`/`dir2Ref`, `timer` for the running interval and
`chanOpen` for the channel being open. -/
def stepGame (pf : List Cell → List Cell → Cell) (phase : GamePhase)
    (d1 d2 : Direction) (timer chanOpen : Bool) (s : SnakeState) : StepResult :=
  if phase ≠ .playing then ⟨s, phase, timer, []⟩
  else
    let s0 := { s with dir1 := d1, dir2 := d2 }
    let n1 := proposedHead s.snake1 d1
    let n2 := proposedHead s.snake2 d2
    if snakeCrash d1 d2 s then
      let sOver := { s0 with phase := .over }
      ⟨sOver, .over, false, if chanOpen then [sOver] else []⟩
    else
      let ate1 : Bool := decide (n1 = s.food)
      let ate2 : Bool := decide (n2 = s.food)
      let ns1 := if ate1 then n1 :: s0.snake1 else (n1 :: s0.snake1).dropLast
      let ns2 := if ate2 then n2 :: s0.snake2 else (n2 :: s0.snake2).dropLast
      let fd := if ate1 || ate2 then pf ns1 ns2 else s.food
      let sc1 := if ate1 then s.score1 + 1 else s.score1
      let sc2 := if ate2 then s.score2 + 1 else s.score2
      let s' := { s0 with snake1 := ns1, snake2 := ns2, food := fd, score1 := sc1, score2 := sc2 }
      ⟨s', phase, timer, if chanOpen then [s'] else []⟩

/-- The guest-side cache the chase game's `applyStateFromHost` (lines 1441-1445)
overwrites: the world-state ref and the displayed scores. -/
structure SnakeGuestView where
  cache : SnakeState
  dispScore1 : ℤ
  dispScore2 : ℤ
deriving DecidableEq, Repr

/-- `applyStateFromHost` (lines 1441-1445): wholesale replacement plus score
display update. -/
def applyStateFromHost (v : SnakeGuestView) (st : SnakeState) : SnakeGuestView :=
  { v with cache := st, dispScore1 := st.score1, dispScore2 := st.score2 }

/-- A chase-game guest processing a sequence of inbound snapshots in order. -/
def snakeGuestApplySnapshots (v : SnakeGuestView) (snaps : List SnakeState) : SnakeGuestView :=
  snaps.foldl applyStateFromHost v

/-- The direction filter shared by the three input sites (lines 1627-1631,
1789-1793, 1810-1814): accept the new direction unless it is the exact
opposite of the current commanded one. -/
def applyTurn (cur next : Direction) : Direction :=
  if next ≠ opposite cur then next else cur

/-- The commanded direction after a burst of inputs between two simulation
steps. -/
def commandedAfter (cur : Direction) (inputs : List Direction) : Direction :=
  inputs.foldl applyTurn cur

/-! ## Countdown (startCountdown: PongGame.tsx 312-354 and 1534-1584) -/

/-- Observable trail of the paddle game's `tick` chain started at `v`: for each
tick invocation, the countdown value it displays and the phase right after it
ran.  Only the tick that reaches zero switches the phase to `playing`
(lines 320-351). -/
def pongCountdownTrace : ℕ → List (ℕ × GamePhase)
  | 0 => [(0, .playing)]
  | v + 1 => (v + 1, .countdown) :: pongCountdownTrace v

/-- Same trail for the chase game's `tick` chain (lines 1541-1579), with a third
component: whether that tick started the simulation step interval.  The host
starts it exactly on the zero tick (lines 1558-1564). -/
def snakeCountdownTrace (isHost : Bool) : ℕ → List (ℕ × GamePhase × Bool)
  | 0 => [(0, .playing, isHost)]
  | v + 1 => (v + 1, .countdown, false) :: snakeCountdownTrace isHost v

/-! ## Wire-level message handling (duck-typed JSON values, PongGame.tsx 398-447 and 1623-1642) -/

/-- A parsed JSON value as the handlers see it, plus the two non-JSON values the
handlers can produce while manipulating one: `undefined` (a missing property)
and `NaN` (arithmetic on a non-number). -/
inductive JVal where
  | jundefined
  | jnull
  | jnan
  | jbool (b : Bool)
  | jnum (q : ℚ)
  | jstr (s : String)
  | jarr (xs : List JVal)
  | jobj (fields : List (String × JVal))
deriving Repr

/-- The single fault kind relevant here: a thrown `TypeError`. -/
inductive JsFault where
  | typeError
deriving DecidableEq, Repr

/-- First field of the given name, JS-style `undefined` when absent. -/
def jlookup (fields : List (String × JVal)) (k : String) : JVal :=
  match fields.find? (fun p => p.1 == k) with
  | some p => p.2
  | none => .jundefined

/-- Property access on a value that is not `null`/`undefined`: a field of an
object, `undefined` on any other value. -/
def jget : JVal → String → JVal
  | .jobj fs, k => jlookup fs k
  | _, _ => .jundefined

/-- Property access that models the JS `TypeError` on `null`/`undefined`
receivers. -/
def jgetE : JVal → String → Except JsFault JVal
  | .jundefined, _ => .error .typeError
  | .jnull, _ => .error .typeError
  | v, k => .ok (jget v k)

/-- JS strict equality on the values the handlers compare: primitives by value
(`NaN` never equal to anything, itself included), reference types never equal
here since distinct wire values are distinct objects. -/
def jStrictEq : JVal → JVal → Bool
  | .jundefined, .jundefined => true
  | .jnull, .jnull => true
  | .jbool a, .jbool b => a == b
  | .jnum a, .jnum b => a == b
  | .jstr a, .jstr b => a == b
  | _, _ => false

/-- JS truthiness of the values in play. -/
def jTruthy : JVal → Bool
  | .jundefined => false
  | .jnull => false
  | .jnan => false
  | .jbool b => b
  | .jnum q => q != 0
  | .jstr s => s != ""
  | .jarr _ => true
  | .jobj _ => true

/-- Subtraction of a constant, `NaN` on a non-number. -/
def jsub (v : JVal) (q : ℚ) : JVal :=
  match v with
  | .jnum a => .jnum (a - q)
  | _ => .jnan

/-- Addition of a constant, `NaN` on a non-number. -/
def jadd (v : JVal) (q : ℚ) : JVal :=
  match v with
  | .jnum a => .jnum (a + q)
  | _ => .jnan

/-- `Math.max` against a constant, `NaN`-propagating. -/
def jmaxC (q : ℚ) (v : JVal) : JVal :=
  match v with
  | .jnum a => .jnum (max q a)
  | _ => .jnan

/-- `Math.min` against a constant, `NaN`-propagating. -/
def jminC (q : ℚ) (v : JVal) : JVal :=
  match v with
  | .jnum a => .jnum (min q a)
  | _ => .jnan

/-- Overwrite or append a field of an object; any other receiver is returned
unchanged (the handlers only ever reach this with an object). -/
def jsetField : List (String × JVal) → String → JVal → List (String × JVal)
  | [], k, x => [(k, x)]
  | (k', v') :: rest, k, x =>
    if k' == k then (k, x) :: rest else (k', v') :: jsetField rest k x

/-- Property write. -/
def jset (v : JVal) (k : String) (x : JVal) : JVal :=
  match v with
  | .jobj fs => .jobj (jsetField fs k x)
  | other => other

/-- The paddle-game session fields as the wire-level handler sees them: the
world-state ref holds whatever JSON value last arrived. -/
structure PongWireSession where
  stateCache : JVal
  dispScore1 : JVal
  dispScore2 : JVal
  phase : GamePhase
  countdownDisp : JVal
  ballSpeed : JVal
  hostFace : Option JVal
  guestFace : Option JVal
deriving Repr

/-- `setupDataChannel`'s `channel.onmessage` (lines 398-447) on an arbitrary
parsed JSON value, duck typing and thrown `TypeError`s included: reading
`.type` of `null` throws, and the guest `gameState` branch throws when
destructuring a missing/`null` `state` payload (line 403), after having already
overwritten the world-state ref (line 402). -/
def pongHandleRaw (role : Role) (sess : PongWireSession) (msg : JVal) :
    Except JsFault PongWireSession :=
  match jgetE msg "type" with
  | .error e => .error e
  | .ok t =>
    if jStrictEq t (.jstr "gameState") ∧ role = .guest then
      match jget msg "state" with
      | .jundefined => .error .typeError
      | .jnull => .error .typeError
      | st =>
        let s1 := jget st "score1"
        let s2 := jget st "score2"
        let sess' := { sess with stateCache := st }
        if ¬ jStrictEq s1 sess.dispScore1 ∨ ¬ jStrictEq s2 sess.dispScore2 then
          .ok { sess' with dispScore1 := s1, dispScore2 := s2 }
        else .ok sess'
    else if jStrictEq t (.jstr "input") ∧ role = .host then
      let paddleY := jget sess.stateCache "paddle2Y"
      let dirv := jget msg "direction"
      if jStrictEq dirv (.jstr "up") then
        .ok { sess with
          stateCache := jset sess.stateCache "paddle2Y" (jmaxC 0 (jsub paddleY PADDLE_SPEED)) }
      else if jStrictEq dirv (.jstr "down") then
        .ok { sess with
          stateCache := jset sess.stateCache "paddle2Y"
            (jminC (CANVAS_HEIGHT - PADDLE_HEIGHT) (jadd paddleY PADDLE_SPEED)) }
      else .ok sess
    else if jStrictEq t (.jstr "hostFace") then
      .ok { sess with hostFace := some (jget msg "data") }
    else if jStrictEq t (.jstr "guestFace") then
      .ok { sess with guestFace := some (jget msg "data") }
    else if jStrictEq t (.jstr "phase") then
      let ph := jget msg "phase"
      if jStrictEq ph (.jstr "countdown") then
        let cd := jget msg "countdown"
        let cd' := match cd with | .jundefined => .jnum 3 | .jnull => .jnum 3 | c => c
        .ok { sess with phase := .countdown, countdownDisp := cd' }
      else if jStrictEq ph (.jstr "playing") then
        .ok { sess with phase := .playing }
      else .ok sess
    else if jStrictEq t (.jstr "settings") then
      match jget msg "ballSpeed" with
      | .jnum q => .ok { sess with ballSpeed := .jnum q }
      | .jnan => .ok { sess with ballSpeed := .jnan }
      | _ => .ok sess
    else .ok sess

/-- The `opposite[_]` record indexed by an arbitrary value (line 1629):
`undefined` off the four direction keys. -/
def oppositeJ : JVal → JVal
  | .jstr "up" => .jstr "down"
  | .jstr "down" => .jstr "up"
  | .jstr "left" => .jstr "right"
  | .jstr "right" => .jstr "left"
  | _ => .jundefined

/-- The chase-game session fields its wire-level handler touches.  `dir2Cmd`
is `dir2Ref.current`, which the input branch can overwrite with an arbitrary
truthy value. -/
structure SnakeWireSession where
  stateCache : JVal
  dispScore1 : JVal
  dispScore2 : JVal
  dir2Cmd : JVal
  phase : GamePhase
  countdownDisp : JVal
deriving Repr

/-- `setupChannel`'s `channel.onmessage` of MultiSnake (lines 1623-1642) on an
arbitrary parsed JSON value.  `applyStateFromHost` (line 1626) throws when its
`updateScores` destructures a missing/`null` state payload. -/
def snakeHandleRaw (role : Role) (sess : SnakeWireSession) (msg : JVal) :
    Except JsFault SnakeWireSession :=
  match jgetE msg "type" with
  | .error e => .error e
  | .ok t =>
    if jStrictEq t (.jstr "gameState") ∧ role = .guest then
      match jget msg "state" with
      | .jundefined => .error .typeError
      | .jnull => .error .typeError
      | st =>
        let sess' := { sess with stateCache := st
                                 dispScore1 := jget st "score1"
                                 dispScore2 := jget st "score2" }
        .ok sess'
    else if jStrictEq t (.jstr "input") ∧ role = .host then
      let nxt := jget msg "direction"
      if jTruthy nxt && !jStrictEq nxt (oppositeJ sess.dir2Cmd) then
        .ok { sess with dir2Cmd := nxt }
      else .ok sess
    else if jStrictEq t (.jstr "phase") then
      let ph := jget msg "phase"
      if jStrictEq ph (.jstr "countdown") then
        let cd := jget msg "countdown"
        let cd' := match cd with | .jundefined => .jnum 3 | .jnull => .jnum 3 | c => c
        .ok { sess with phase := .countdown, countdownDisp := cd' }
      else if jStrictEq ph (.jstr "playing") then
        .ok { sess with phase := .playing }
      else .ok sess
    else .ok sess

/-! ## Session teardown and pending countdown timer (endSession: PongGame.tsx 664-689 and 1727-1744) -/

/-- A phase-transition broadcast. -/
inductive PhaseSend where
  | countdownMsg (v : ℕ)
  | playingMsg
deriving DecidableEq, Repr

/-- The session-level view of MultiSnake relevant to teardown: role, phase,
the step interval, the pending `setTimeout` countdown tick
(`countdownTimerRef`), the transport handles and the world state. -/
structure SnakeSession where
  role : Role
  phase : GamePhase
  connected : Bool
  stepTimer : Bool
  countdownPending : Option ℕ
  countdownDisp : ℕ
  chanOpen : Bool
  peerOpen : Bool
  state : SnakeState
deriving DecidableEq, Repr

/-- `endSession` of MultiSnake (lines 1727-1744): stops the step interval,
closes channel and peer connection, resets role/phase/connected flags and the
world state's phase field.  It never clears `countdownTimerRef`, so
`countdownPending` is left untouched. -/
def snakeEndSession (s : SnakeSession) : SnakeSession :=
  { s with stepTimer := false
           chanOpen := false, peerOpen := false
           connected := false
           role := .none
           phase := .idle
           state := { s.state with phase := .idle } }

/-- The pending countdown `setTimeout` of MultiSnake firing (`tick v`,
lines 1541-1579): displays `v`; a host with an open channel broadcasts the
tick; at zero the phase flips to `playing` and a host (re)starts the step
interval, otherwise the next tick is scheduled. -/
def snakeFireCountdown (s : SnakeSession) : SnakeSession × List PhaseSend :=
  match s.countdownPending with
  | none => (s, [])
  | some v =>
    let base := { s with countdownDisp := v, countdownPending := none }
    let send1 : List PhaseSend :=
      if s.role = .host ∧ s.chanOpen then [.countdownMsg v] else []
    if v = 0 then
      let s' := if s.role = .host then { base with phase := .playing, stepTimer := true }
                else { base with phase := GamePhase.playing }
      (s', send1 ++ (if s.role = .host ∧ s.chanOpen then [.playingMsg] else []))
    else
      ({ base with countdownPending := some (v - 1) }, send1)

/-- The session-level view of PongGame relevant to teardown: the animation-frame
game loop takes the step interval's place. -/
structure PongFullSession where
  role : Role
  phase : GamePhase
  connected : Bool
  gameLoop : Bool
  countdownPending : Option ℕ
  countdownDisp : ℕ
  chanOpen : Bool
  peerOpen : Bool
  gs : PongState
  ballSpeed : ℚ
deriving DecidableEq, Repr

/-- `endSession` of PongGame (lines 664-689): cancels the animation-frame loop,
resets role/phase/flags, resets the world state (`resetState`, which also puts
the countdown display back to 3) and closes channel and peer connection.  As in
the chase game, `countdownTimerRef` is never cleared. -/
def pongEndSession (s : PongFullSession) : PongFullSession :=
  { s with gameLoop := false
           connected := false
           role := .none
           phase := .idle
           gs := pongResetState s.ballSpeed
           countdownDisp := 3
           chanOpen := false, peerOpen := false }

/-- The pending countdown `setTimeout` of PongGame firing (`tick v`,
lines 320-351): like the chase game's, but there is no step timer to start at
zero. -/
def pongFireCountdown (s : PongFullSession) : PongFullSession × List PhaseSend :=
  match s.countdownPending with
  | none => (s, [])
  | some v =>
    let base := { s with countdownDisp := v, countdownPending := none }
    let send1 : List PhaseSend :=
      if s.role = .host ∧ s.chanOpen then [.countdownMsg v] else []
    if v = 0 then
      ({ base with phase := .playing },
        send1 ++ (if s.role = .host ∧ s.chanOpen then [.playingMsg] else []))
    else
      ({ base with countdownPending := some (v - 1) }, send1)

/-! ## Legality (claim C7's "legal World State") -/

/-- A legal paddle-game state: positions inside the canvas/playfield,
non-negative scores, and a consistent vertical ball velocity — bounded by the
half of the maximal slider speed, and pointing back inside whenever the ball
sits in one of the reflection bands the wall bounce does not clamp. -/
def PongLegal (s : PongState) : Prop :=
  0 ≤ s.paddle1Y ∧ s.paddle1Y ≤ CANVAS_HEIGHT - PADDLE_HEIGHT ∧
  0 ≤ s.paddle2Y ∧ s.paddle2Y ≤ CANVAS_HEIGHT - PADDLE_HEIGHT ∧
  0 ≤ s.ballX ∧ s.ballX ≤ CANVAS_WIDTH ∧
  0 ≤ s.ballY ∧ s.ballY ≤ CANVAS_HEIGHT ∧
  0 ≤ s.score1 ∧ 0 ≤ s.score2 ∧
  |s.ballVY| ≤ 8 ∧
  (CANVAS_HEIGHT - BALL_SIZE / 2 < s.ballY → s.ballVY ≤ 0) ∧
  (s.ballY < BALL_SIZE / 2 → 0 ≤ s.ballVY)

/-- A cell inside the chase game's grid. -/
def inGrid (c : Cell) : Prop :=
  0 ≤ c.x ∧ c.x < COLS ∧ 0 ≤ c.y ∧ c.y < ROWS

/-- A legal chase-game state: all body segments on the grid, non-negative
scores. -/
def SnakeLegal (s : SnakeState) : Prop :=
  (∀ c ∈ s.snake1, inGrid c) ∧ (∀ c ∈ s.snake2, inGrid c) ∧
  0 ≤ s.score1 ∧ 0 ≤ s.score2

/-! ## Concrete instances used by counterexamples, scenarios and witnesses -/

/-- A paddle-game session as it stands in the lobby right after the channel
opened: initial world state, default ball speed, no scores. -/
def pongSession0 : PongSession :=
  { gs := pongInitState, phase := .lobby, countdownDisp := 3
    ballSpeed := DEFAULT_BALL_SPEED, dispScore1 := 0, dispScore2 := 0
    hostFace := none, guestFace := none }

/-- The spec's chase-game scenario: two 3-cell bodies on row 8 moving toward
each other, one cell of gap, so both proposed next heads are `(5, 8)`. -/
def snakeScenarioState : SnakeState :=
  { snake1 := [⟨4, 8⟩, ⟨3, 8⟩, ⟨2, 8⟩]
    snake2 := [⟨6, 8⟩, ⟨7, 8⟩, ⟨8, 8⟩]
    dir1 := .right, dir2 := .left
    food := ⟨0, 0⟩
    score1 := 0, score2 := 0
    phase := .playing }

/-- A chase-game host session in mid-countdown: the zero tick is already
scheduled, the step interval not yet started. -/
def snakeSessionMid : SnakeSession :=
  { role := .host, phase := .countdown, connected := true
    stepTimer := false, countdownPending := some 0, countdownDisp := 1
    chanOpen := true, peerOpen := true
    state := { snakeInitState with phase := .countdown } }

/-- A paddle-game host session in mid-countdown. -/
def pongSessionMid : PongFullSession :=
  { role := .host, phase := .countdown, connected := true
    gameLoop := true, countdownPending := some 0, countdownDisp := 1
    chanOpen := true, peerOpen := true
    gs := pongInitState, ballSpeed := DEFAULT_BALL_SPEED }

/-- A wire-level paddle-game guest session in play. -/
def pongWireSession0 : PongWireSession :=
  { stateCache := .jobj [], dispScore1 := .jnum 0, dispScore2 := .jnum 0
    phase := .playing, countdownDisp := .jnum 0
    ballSpeed := .jnum 5, hostFace := none, guestFace := none }

/-- A wire-level chase-game guest session in play. -/
def snakeWireSession0 : SnakeWireSession :=
  { stateCache := .jobj [], dispScore1 := .jnum 0, dispScore2 := .jnum 0
    dir2Cmd := .jstr "left", phase := .playing, countdownDisp := .jnum 0 }

/-! # Theorems -/

/-! ## Codec lemmas -/

theorem b64IndexOf_charOf_fin : ∀ i : Fin 64, b64IndexOf (b64CharOf i.val) = some i.val := by
  decide

theorem b64CharOf_fin_ne : ∀ i : Fin 64,
    b64CharOf i.val ≠ '=' ∧ b64CharOf i.val ≠ '-' ∧ b64CharOf i.val ≠ '_' := by
  decide

theorem b64Alphabet_length : b64Alphabet.length = 64 := by decide

theorem b64IndexOf_charOf {n : Nat} (h : n < 64) : b64IndexOf (b64CharOf n) = some n :=
  b64IndexOf_charOf_fin ⟨n, h⟩

theorem b64CharOf_ne (n : Nat) :
    b64CharOf n ≠ '=' ∧ b64CharOf n ≠ '-' ∧ b64CharOf n ≠ '_' := by
  by_cases h : n < 64
  · exact b64CharOf_fin_ne ⟨n, h⟩
  · have hd : b64CharOf n = '?' := by
      unfold b64CharOf
      exact List.getD_eq_default _ _ (by rw [b64Alphabet_length]; omega)
    rw [hd]
    exact ⟨by decide, by decide, by decide⟩

theorem base64Decode_encode : ∀ bs : List Nat, (∀ b ∈ bs, b < 256) →
    base64Decode (base64Encode bs) = some bs
  | [], _ => by decide
  | [a], h => by
    have ha : a < 256 := h a (by simp)
    simp only [base64Encode, encGroup1, base64Decode,
      b64IndexOf_charOf (show a / 4 < 64 by omega),
      b64IndexOf_charOf (show a % 4 * 16 < 64 by omega)]
    rw [if_pos (by simp)]
    have : a / 4 * 4 + a % 4 * 16 / 16 = a := by omega
    rw [this]
  | [a, b], h => by
    have ha : a < 256 := h a (by simp)
    have hb : b < 256 := h b (by simp)
    simp only [base64Encode, encGroup2, base64Decode,
      b64IndexOf_charOf (show a / 4 < 64 by omega),
      b64IndexOf_charOf (show a % 4 * 16 + b / 16 < 64 by omega),
      b64IndexOf_charOf (show b % 16 * 4 < 64 by omega)]
    rw [if_neg (by
      intro hcon
      exact (b64CharOf_ne (b % 16 * 4)).1 hcon.1)]
    rw [if_pos (by simp)]
    have e1 : a / 4 * 4 + (a % 4 * 16 + b / 16) / 16 = a := by omega
    have e2 : (a % 4 * 16 + b / 16) % 16 * 16 + b % 16 * 4 / 4 = b := by omega
    rw [e1, e2]
  | a :: b :: c :: rest, h => by
    have ha : a < 256 := h a (by simp)
    have hb : b < 256 := h b (by simp)
    have hc : c < 256 := h c (by simp)
    have ih := base64Decode_encode rest (fun x hx => h x (by simp [hx]))
    simp only [base64Encode, encGroup3, List.cons_append, List.nil_append, List.append_eq,
      base64Decode,
      b64IndexOf_charOf (show a / 4 < 64 by omega),
      b64IndexOf_charOf (show a % 4 * 16 + b / 16 < 64 by omega),
      b64IndexOf_charOf (show b % 16 * 4 + c / 64 < 64 by omega),
      b64IndexOf_charOf (show c % 64 < 64 by omega)]
    rw [if_neg (by
      intro hcon
      exact (b64CharOf_ne (b % 16 * 4 + c / 64)).1 hcon.1)]
    rw [if_neg (by
      intro hcon
      exact (b64CharOf_ne (c % 64)).1 hcon.1)]
    rw [ih]
    have e1 : a / 4 * 4 + (a % 4 * 16 + b / 16) / 16 = a := by omega
    have e2 : (a % 4 * 16 + b / 16) % 16 * 16 + (b % 16 * 4 + c / 64) / 4 = b := by omega
    have e3 : (b % 16 * 4 + c / 64) % 4 * 64 + c % 64 = c := by omega
    rw [Option.map_some', e1, e2, e3]

theorem stripEq_cons_ne {c : Char} (t : List Char) (hc : c ≠ '=') :
    stripEq (c :: t) = c :: stripEq t := by
  simp [stripEq, hc]

theorem padEq_cons4 (a b c d : Char) (s : List Char) :
    padEq (a :: b :: c :: d :: s) = a :: b :: c :: d :: padEq s := by
  have hlen : (4 - (s.length + 1 + 1 + 1 + 1) % 4) % 4 = (4 - s.length % 4) % 4 := by omega
  simp only [padEq, List.length_cons, hlen, List.cons_append]

theorem padEq_stripEq_encode : ∀ bs : List Nat,
    padEq (stripEq (base64Encode bs)) = base64Encode bs
  | [] => by decide
  | [a] => by
    simp only [base64Encode, encGroup1]
    rw [stripEq_cons_ne _ (b64CharOf_ne _).1, stripEq_cons_ne _ (b64CharOf_ne _).1]
    have h2 : stripEq ['=', '='] = [] := by decide
    rw [h2]
    rfl
  | [a, b] => by
    simp only [base64Encode, encGroup2]
    rw [stripEq_cons_ne _ (b64CharOf_ne _).1, stripEq_cons_ne _ (b64CharOf_ne _).1,
      stripEq_cons_ne _ (b64CharOf_ne _).1]
    have h1 : stripEq ['='] = [] := by decide
    rw [h1]
    rfl
  | a :: b :: c :: rest => by
    have ih := padEq_stripEq_encode rest
    simp only [base64Encode, encGroup3, List.cons_append, List.nil_append]
    rw [stripEq_cons_ne _ (b64CharOf_ne _).1, stripEq_cons_ne _ (b64CharOf_ne _).1,
      stripEq_cons_ne _ (b64CharOf_ne _).1, stripEq_cons_ne _ (b64CharOf_ne _).1,
      padEq_cons4, ih]

theorem base64Encode_not_url : ∀ bs : List Nat, ∀ c ∈ base64Encode bs,
    c ≠ '-' ∧ c ≠ '_'
  | [] => by simp [base64Encode]
  | [a] => by
    intro c hc
    simp only [base64Encode, encGroup1, List.mem_cons, List.not_mem_nil, or_false] at hc
    rcases hc with h | h | h | h <;> subst h
    · exact ⟨(b64CharOf_ne _).2.1, (b64CharOf_ne _).2.2⟩
    · exact ⟨(b64CharOf_ne _).2.1, (b64CharOf_ne _).2.2⟩
    · exact ⟨by decide, by decide⟩
    · exact ⟨by decide, by decide⟩
  | [a, b] => by
    intro c hc
    simp only [base64Encode, encGroup2, List.mem_cons, List.not_mem_nil, or_false] at hc
    rcases hc with h | h | h | h <;> subst h
    · exact ⟨(b64CharOf_ne _).2.1, (b64CharOf_ne _).2.2⟩
    · exact ⟨(b64CharOf_ne _).2.1, (b64CharOf_ne _).2.2⟩
    · exact ⟨(b64CharOf_ne _).2.1, (b64CharOf_ne _).2.2⟩
    · exact ⟨by decide, by decide⟩
  | a :: b :: c :: rest => by
    intro x hx
    simp only [base64Encode, encGroup3, List.cons_append, List.nil_append, List.mem_cons] at hx
    rcases hx with h | h | h | h | h
    · subst h; exact ⟨(b64CharOf_ne _).2.1, (b64CharOf_ne _).2.2⟩
    · subst h; exact ⟨(b64CharOf_ne _).2.1, (b64CharOf_ne _).2.2⟩
    · subst h; exact ⟨(b64CharOf_ne _).2.1, (b64CharOf_ne _).2.2⟩
    · subst h; exact ⟨(b64CharOf_ne _).2.1, (b64CharOf_ne _).2.2⟩
    · exact base64Encode_not_url rest x h

theorem urlSafeEncodeChar_eq_pad_iff (c : Char) : urlSafeEncodeChar c = '=' ↔ c = '=' := by
  unfold urlSafeEncodeChar
  split_ifs with h1 h2
  · subst h1; decide
  · subst h2; decide
  · rfl

theorem stripEq_map_enc : ∀ l : List Char,
    stripEq (l.map urlSafeEncodeChar) = (stripEq l).map urlSafeEncodeChar := by
  intro l
  induction l with
  | nil => rfl
  | cons c t ih =>
    simp only [List.map_cons, stripEq, ih, List.map_eq_nil_iff,
      urlSafeEncodeChar_eq_pad_iff]
    by_cases h : c = '=' ∧ stripEq t = []
    · rw [if_pos h, if_pos h]
      rfl
    · rw [if_neg h, if_neg h]
      rfl

theorem urlSafe_roundtrip_char (c : Char) (h1 : c ≠ '-') (h2 : c ≠ '_') :
    urlSafeDecodeChar (urlSafeEncodeChar c) = c := by
  unfold urlSafeEncodeChar urlSafeDecodeChar
  split_ifs with g1 g2 <;> simp_all

theorem stripEq_subset : ∀ l : List Char, ∀ c ∈ stripEq l, c ∈ l := by
  intro l
  induction l with
  | nil => simp [stripEq]
  | cons x t ih =>
    intro c hc
    simp only [stripEq] at hc
    split_ifs at hc with h
    · simp at hc
    · rcases List.mem_cons.mp hc with h' | h'
      · simp [h']
      · exact List.mem_cons_of_mem _ (ih c h')

/-- Claim C1: for every well-formed session-description object `d` — one on
which the JSON and gzip library layers round-trip, producing bytes — decoding
the encoded token returns `d`: `decodeFromURL (encodeForURL d) = d`. -/
theorem C1_decode_encode_roundtrip
    (stringify : SessionDescription → String) (parse : String → Option SessionDescription)
    (gzip : String → List Nat) (ungzip : List Nat → Option String)
    (d : SessionDescription)
    (hz : ungzip (gzip (stringify d)) = some (stringify d))
    (hp : parse (stringify d) = some d)
    (hb : ∀ b ∈ gzip (stringify d), b < 256) :
    decodeFromURL parse ungzip (encodeForURL stringify gzip d) = some d := by
  unfold encodeForURL decodeFromURL
  rw [stripEq_map_enc]
  have hmap : ((stripEq (base64Encode (gzip (stringify d)))).map urlSafeEncodeChar).map
        urlSafeDecodeChar = stripEq (base64Encode (gzip (stringify d))) := by
    rw [List.map_map]
    have hcongr : ∀ c ∈ stripEq (base64Encode (gzip (stringify d))),
        (urlSafeDecodeChar ∘ urlSafeEncodeChar) c = id c := by
      intro c hc
      have hne := base64Encode_not_url _ c (stripEq_subset _ c hc)
      simpa using urlSafe_roundtrip_char c hne.1 hne.2
    rw [List.map_congr_left hcongr, List.map_id]
  rw [hmap, padEq_stripEq_encode, base64Decode_encode _ hb]
  show (match ungzip (gzip (stringify d)) with
    | none => none
    | some str => parse str) = some d
  rw [hz]
  exact hp

/-- Witness for C1 at a concrete description and concrete (round-tripping)
library stand-ins. -/
theorem C1_decode_encode_roundtrip_witness :
    decodeFromURL (fun _ => some ⟨"v=0", "offer"⟩) (fun _ => some "x")
      (encodeForURL (fun _ => "x") (fun _ => [1, 255, 3]) ⟨"v=0", "offer"⟩)
      = some ⟨"v=0", "offer"⟩ :=
  C1_decode_encode_roundtrip (fun _ => "x") (fun _ => some ⟨"v=0", "offer"⟩)
    (fun _ => [1, 255, 3]) (fun _ => some "x") ⟨"v=0", "offer"⟩ rfl rfl (by decide)

/-! ## C10: the direction filter -/

/-- Claim C10 counterexample: starting from commanded direction `right`, the two
inputs `up` then `left` both pass the single-step opposite filter, leaving the
commanded direction `left` — the exact opposite of `right`.  With both inputs
arriving between two consecutive simulation steps, the snake's direction does
reverse 180 degrees between those steps, refuting the claim as stated. -/
theorem C10_reversal_counterexample :
    commandedAfter .right [.up, .left] = opposite .right ∧
    applyTurn .right .up = .up ∧ applyTurn .up .left = .left := by
  decide

/-- Claim C10 amended: a single direction update (host keyboard, guest send
filter, or host receipt of a guest input) never sets the exact opposite of the
current commanded direction; the 180-degree reversal guarantee between
consecutive simulation steps holds only when at most one input is accepted in
between. -/
theorem C10_single_turn_no_reversal :
    ∀ cur next : Direction,
      applyTurn cur next ≠ opposite cur ∧ commandedAfter cur [next] ≠ opposite cur := by
  decide

/-! ## C3: countdown -/

theorem snakeCountdownTrace_mem : ∀ (isHost : Bool) (v : ℕ),
    ∀ p ∈ snakeCountdownTrace isHost v,
      (p.2.1 = GamePhase.playing ↔ p.1 = 0) ∧ (p.2.2 = true ↔ (p.1 = 0 ∧ isHost = true)) := by
  intro isHost v
  induction v with
  | zero =>
    intro p hp
    simp only [snakeCountdownTrace, List.mem_singleton] at hp
    subst hp
    cases isHost <;> simp
  | succ n ih =>
    intro p hp
    simp only [snakeCountdownTrace, List.mem_cons] at hp
    rcases hp with hp | hp
    · subst hp
      simp
    · exact ih p hp

theorem pongCountdownTrace_mem : ∀ v : ℕ,
    ∀ p ∈ pongCountdownTrace v, p.2 = GamePhase.playing ↔ p.1 = 0 := by
  intro v
  induction v with
  | zero =>
    intro p hp
    simp only [pongCountdownTrace, List.mem_singleton] at hp
    subst hp
    simp
  | succ n ih =>
    intro p hp
    simp only [pongCountdownTrace, List.mem_cons] at hp
    rcases hp with hp | hp
    · subst hp
      simp
    · exact ih p hp

/-- Claim C3: from the lobby, the host-triggered countdown started at the
configured constant 3 ticks through 3, 2, 1, 0, each tick one below the
previous; every tick before zero leaves the phase at `countdown`, the phase
flips to `playing` exactly on the zero tick, and in the chase game the host
starts the simulation step interval exactly at that instant (the paddle game
has no step timer to start; its already-running frame loop begins advancing the
ball once the phase is `playing`). -/
theorem C3_countdown_reaches_playing :
    snakeCountdownTrace true 3 =
      [(3, .countdown, false), (2, .countdown, false), (1, .countdown, false),
        (0, .playing, true)] ∧
    pongCountdownTrace 3 =
      [(3, .countdown), (2, .countdown), (1, .countdown), (0, .playing)] ∧
    (∀ (isHost : Bool) (v : ℕ), ∀ p ∈ snakeCountdownTrace isHost v,
      (p.2.1 = GamePhase.playing ↔ p.1 = 0) ∧ (p.2.2 = true ↔ (p.1 = 0 ∧ isHost = true))) ∧
    (∀ v : ℕ, ∀ p ∈ pongCountdownTrace v, p.2 = GamePhase.playing ↔ p.1 = 0) :=
  ⟨by decide, by decide, snakeCountdownTrace_mem, pongCountdownTrace_mem⟩

/-- Witness for C3's quantified parts at the concrete zero tick of a host
countdown from 3. -/
theorem C3_countdown_witness :
    (GamePhase.playing = GamePhase.playing ↔ (0 : ℕ) = 0) ∧
    (true = true ↔ ((0 : ℕ) = 0 ∧ true = true)) :=
  C3_countdown_reaches_playing.2.2.1 true 3 (0, .playing, true) (by decide)

/-! ## C4: wholesale snapshot replacement -/

theorem guestApplySnapshots_gs : ∀ (snaps : List PongState) (sess : PongSession),
    (guestApplySnapshots sess snaps).gs = snaps.getLastD sess.gs := by
  intro snaps
  induction snaps with
  | nil => intro sess; rfl
  | cons st l ih =>
    intro sess
    have hgs : (pongHandleMessage .guest sess (.gameState st)).gs = st := by
      simp only [pongHandleMessage, if_pos rfl]
      split_ifs <;> rfl
    calc (guestApplySnapshots sess (st :: l)).gs
        = (guestApplySnapshots (pongHandleMessage .guest sess (.gameState st)) l).gs := rfl
      _ = l.getLastD (pongHandleMessage .guest sess (.gameState st)).gs := ih _
      _ = l.getLastD st := by rw [hgs]
      _ = (st :: l).getLastD sess.gs := (List.getLastD_cons _ _ _).symm

theorem snakeGuestApplySnapshots_cache : ∀ (snaps : List SnakeState) (v : SnakeGuestView),
    (snakeGuestApplySnapshots v snaps).cache = snaps.getLastD v.cache := by
  intro snaps
  induction snaps with
  | nil => intro v; rfl
  | cons st l ih =>
    intro v
    calc (snakeGuestApplySnapshots v (st :: l)).cache
        = (snakeGuestApplySnapshots (applyStateFromHost v st) l).cache := rfl
      _ = l.getLastD (applyStateFromHost v st).cache := ih _
      _ = l.getLastD st := rfl
      _ = (st :: l).getLastD v.cache := (List.getLastD_cons _ _ _).symm

/-- Claim C4: a guest processing any sequence of inbound state snapshots ends
up holding exactly the last received payload — wholesale replacement, never a
merge — in both games; in particular the spec's scenario: snapshots with scores
(2,1) then (3,1) leave the guest's world state and score display at (3,1). -/
theorem C4_guest_state_is_last_snapshot :
    (∀ (snaps : List PongState) (sess : PongSession),
        (guestApplySnapshots sess snaps).gs = snaps.getLastD sess.gs) ∧
    (∀ (snaps : List SnakeState) (v : SnakeGuestView),
        (snakeGuestApplySnapshots v snaps).cache = snaps.getLastD v.cache) ∧
    ((guestApplySnapshots pongSession0
        [{ pongInitState with score1 := 2, score2 := 1 },
          { pongInitState with score1 := 3, score2 := 1 }]).gs
        = { pongInitState with score1 := 3, score2 := 1 } ∧
      (guestApplySnapshots pongSession0
        [{ pongInitState with score1 := 2, score2 := 1 },
          { pongInitState with score1 := 3, score2 := 1 }]).dispScore1 = 3 ∧
      (guestApplySnapshots pongSession0
        [{ pongInitState with score1 := 2, score2 := 1 },
          { pongInitState with score1 := 3, score2 := 1 }]).dispScore2 = 1) :=
  ⟨guestApplySnapshots_gs, snakeGuestApplySnapshots_cache, by
    refine ⟨?_, ?_, ?_⟩ <;>
      simp [guestApplySnapshots, pongHandleMessage, pongSession0, pongInitState]⟩

/-! ## C2: who mutates the world state, and when -/

/-- Claim C2 counterexample: in the paddle game, an inbound control-input
message handled by the host mutates the world state immediately, inside the
network callback, while the phase is `lobby` (not `active`): the guarded paddle
moves up by the paddle speed.  This refutes both "mutated only by the host's
simulation step and only while phase = active" and "applied on the next
simulation step, not directly from the network callback". -/
theorem C2_input_mutates_in_callback_counterexample :
    pongSession0.phase = GamePhase.lobby ∧
    (pongHandleMessage .host pongSession0 (.input .up)).gs ≠ pongSession0.gs ∧
    (pongHandleMessage .host pongSession0 (.input .up)).gs.paddle2Y
      = pongSession0.gs.paddle2Y - PADDLE_SPEED := by
  have hp2 : (pongHandleMessage .host pongSession0 (.input .up)).gs.paddle2Y = 228 := by
    simp only [pongHandleMessage, if_pos rfl]
    norm_num [pongSession0, pongInitState, PADDLE_SPEED, CANVAS_HEIGHT, PADDLE_HEIGHT]
  have hp0 : pongSession0.gs.paddle2Y = 236 := by
    norm_num [pongSession0, pongInitState, CANVAS_HEIGHT, PADDLE_HEIGHT]
  refine ⟨rfl, fun hcon => ?_, ?_⟩
  · rw [hcon, hp0] at hp2
    norm_num at hp2
  · rw [hp2, hp0]
    norm_num [PADDLE_SPEED]

/-- Claim C2 amended: in the paddle game, a host-received control-input is
applied to the guarded paddle immediately in the network callback, clamped to
the playfield, regardless of phase (ball and scores untouched); in the chase
game, the handler never mutates the cached world state on the host — an input
only updates the commanded-direction ref — and the simulation step leaves the
world state unchanged and broadcasts nothing whenever the phase is not
`playing`. -/
theorem C2_amended_mutation_discipline :
    (∀ (sess : PongSession) (d : InputDir),
        (pongHandleMessage .host sess (.input d)).phase = sess.phase ∧
        (pongHandleMessage .host sess (.input d)).gs.paddle2Y
          = (match d with
            | .up => max 0 (sess.gs.paddle2Y - PADDLE_SPEED)
            | .down => min (CANVAS_HEIGHT - PADDLE_HEIGHT) (sess.gs.paddle2Y + PADDLE_SPEED)) ∧
        (pongHandleMessage .host sess (.input d)).gs.ballX = sess.gs.ballX ∧
        (pongHandleMessage .host sess (.input d)).gs.ballY = sess.gs.ballY ∧
        (pongHandleMessage .host sess (.input d)).gs.score1 = sess.gs.score1 ∧
        (pongHandleMessage .host sess (.input d)).gs.score2 = sess.gs.score2) ∧
    (∀ (sess : SnakeWireSession) (msg : JVal) (sess' : SnakeWireSession),
        snakeHandleRaw .host sess msg = .ok sess' → sess'.stateCache = sess.stateCache) ∧
    (∀ (pf : List Cell → List Cell → Cell) (ph : GamePhase) (d1 d2 : Direction)
        (timer chan : Bool) (s : SnakeState), ph ≠ .playing →
        stepGame pf ph d1 d2 timer chan s = ⟨s, ph, timer, []⟩) := by
  refine ⟨?_, ?_, ?_⟩
  · intro sess d
    cases d <;> simp [pongHandleMessage]
  · intro sess msg sess' h
    cases hJ : jgetE msg "type" with
    | error e => simp [snakeHandleRaw, hJ] at h
    | ok t =>
      simp only [snakeHandleRaw, hJ] at h
      split_ifs at h
      all_goals
        first
        | (injection h with h; subst h; rfl)
        | (exfalso; simp_all)
  · intro pf ph d1 d2 timer chan s hph
    simp [stepGame, hph]

/-- Witness for C2's amended statement at concrete inputs. -/
theorem C2_amended_witness :
    stepGame (fun _ _ => ⟨0, 0⟩) .over .up .up true true snakeInitState
      = ⟨snakeInitState, .over, true, []⟩ :=
  C2_amended_mutation_discipline.2.2 (fun _ _ => ⟨0, 0⟩) .over .up .up true true
    snakeInitState (by decide)

/-! ## C5: terminal conditions on proposed heads -/

theorem snakeCrash_of_head_collision (d1 d2 : Direction) (s : SnakeState)
    (h : proposedHead s.snake1 d1 = proposedHead s.snake2 d2) :
    snakeCrash d1 d2 s = true := by
  simp [snakeCrash, h]

theorem stepGame_crash (pf : List Cell → List Cell → Cell) (d1 d2 : Direction)
    (timer chan : Bool) (s : SnakeState) (h : snakeCrash d1 d2 s = true) :
    stepGame pf .playing d1 d2 timer chan s =
      ⟨{ s with dir1 := d1, dir2 := d2, phase := .over }, .over, false,
        if chan then [{ s with dir1 := d1, dir2 := d2, phase := .over }] else []⟩ := by
  simp [stepGame, h]

theorem stepGame_over_inert (pf : List Cell → List Cell → Cell) (d1 d2 : Direction)
    (timer chan : Bool) (s : SnakeState) :
    stepGame pf .over d1 d2 timer chan s = ⟨s, .over, timer, []⟩ := by
  simp [stepGame]

/-- Claim C5: the chase game's step evaluates every terminal condition against
the proposed next head positions before committing them — a crash tick commits
nothing (bodies, food and scores unchanged), sets the terminal phase, and stops
the step timer; coinciding proposed heads are such a crash; and once the phase
is terminal a step changes nothing and broadcasts nothing, so no further
snapshot goes out until restart.  The spec's concrete scenario — two 3-cell
bodies closing head-on on row 8 — ends exactly so, with the terminal state
broadcast once on the ending tick. -/
theorem C5_terminal_on_proposed_heads :
    (∀ (d1 d2 : Direction) (s : SnakeState),
        proposedHead s.snake1 d1 = proposedHead s.snake2 d2 → snakeCrash d1 d2 s = true) ∧
    (∀ (pf : List Cell → List Cell → Cell) (d1 d2 : Direction) (timer chan : Bool)
        (s : SnakeState), snakeCrash d1 d2 s = true →
        (stepGame pf .playing d1 d2 timer chan s).state.snake1 = s.snake1 ∧
        (stepGame pf .playing d1 d2 timer chan s).state.snake2 = s.snake2 ∧
        (stepGame pf .playing d1 d2 timer chan s).state.food = s.food ∧
        (stepGame pf .playing d1 d2 timer chan s).state.score1 = s.score1 ∧
        (stepGame pf .playing d1 d2 timer chan s).state.score2 = s.score2 ∧
        (stepGame pf .playing d1 d2 timer chan s).state.phase = .over ∧
        (stepGame pf .playing d1 d2 timer chan s).phaseRef = .over ∧
        (stepGame pf .playing d1 d2 timer chan s).timerOn = false) ∧
    (∀ (pf : List Cell → List Cell → Cell) (d1 d2 : Direction) (timer chan : Bool)
        (s : SnakeState), stepGame pf .over d1 d2 timer chan s = ⟨s, .over, timer, []⟩) ∧
    stepGame (fun _ _ => ⟨0, 0⟩) .playing .right .left true true snakeScenarioState =
      ⟨{ snakeScenarioState with phase := .over }, .over, false,
        [{ snakeScenarioState with phase := .over }]⟩ := by
  refine ⟨snakeCrash_of_head_collision, ?_, stepGame_over_inert, by decide⟩
  intro pf d1 d2 timer chan s h
  rw [stepGame_crash pf d1 d2 timer chan s h]
  refine ⟨rfl, rfl, rfl, rfl, rfl, rfl, rfl, rfl⟩

/-- Witness for C5's conditional parts at the spec's concrete scenario. -/
theorem C5_terminal_witness :
    snakeCrash .right .left snakeScenarioState = true ∧
    (stepGame (fun _ _ => ⟨0, 0⟩) .playing .right .left true true
        snakeScenarioState).state.snake1 = snakeScenarioState.snake1 :=
  ⟨C5_terminal_on_proposed_heads.1 .right .left snakeScenarioState (by decide),
    (C5_terminal_on_proposed_heads.2.1 (fun _ _ => ⟨0, 0⟩) .right .left true true
      snakeScenarioState
      (C5_terminal_on_proposed_heads.1 .right .left snakeScenarioState (by decide))).1⟩

/-! ## C6: scoring resets only the transient entity -/

theorem pongScoreStep_scores_mono (speed : ℚ) (rnd : Bool) (s : PongState) :
    s.score1 ≤ (pongScoreStep speed rnd s).score1 ∧
    s.score2 ≤ (pongScoreStep speed rnd s).score2 := by
  unfold pongScoreStep resetBall
  split_ifs <;> (try norm_num [CANVAS_WIDTH]) <;> (try split_ifs) <;> (try simp)

theorem pongStages_scores (keyUp keyDown : Bool) (s : PongState) :
    ((pongApplyKeys keyUp keyDown s).score1 = s.score1 ∧
      (pongApplyKeys keyUp keyDown s).score2 = s.score2) ∧
    ((pongMoveBall s).score1 = s.score1 ∧ (pongMoveBall s).score2 = s.score2) ∧
    ((pongWallBounce s).score1 = s.score1 ∧ (pongWallBounce s).score2 = s.score2) ∧
    ((pongLeftPaddleBounce s).score1 = s.score1 ∧ (pongLeftPaddleBounce s).score2 = s.score2) ∧
    ((pongRightPaddleBounce s).score1 = s.score1 ∧ (pongRightPaddleBounce s).score2 = s.score2) := by
  unfold pongApplyKeys pongMoveBall pongWallBounce pongLeftPaddleBounce pongRightPaddleBounce
  split_ifs <;> simp

theorem updateGame_scores_mono (phase : GamePhase) (keyUp keyDown : Bool) (speed : ℚ)
    (rnd : Bool) (s : PongState) :
    s.score1 ≤ (updateGame phase keyUp keyDown speed rnd s).score1 ∧
    s.score2 ≤ (updateGame phase keyUp keyDown speed rnd s).score2 := by
  unfold updateGame
  split_ifs with hph
  · have hk := (pongStages_scores keyUp keyDown s).1
    have hm := (pongStages_scores keyUp keyDown (pongApplyKeys keyUp keyDown s)).2.1
    have hw := (pongStages_scores keyUp keyDown
      (pongMoveBall (pongApplyKeys keyUp keyDown s))).2.2.1
    have hl := (pongStages_scores keyUp keyDown
      (pongWallBounce (pongMoveBall (pongApplyKeys keyUp keyDown s)))).2.2.2.1
    have hr := (pongStages_scores keyUp keyDown
      (pongLeftPaddleBounce (pongWallBounce (pongMoveBall
        (pongApplyKeys keyUp keyDown s))))).2.2.2.2
    have hsc := pongScoreStep_scores_mono speed rnd
      (pongRightPaddleBounce (pongLeftPaddleBounce (pongWallBounce (pongMoveBall
        (pongApplyKeys keyUp keyDown s)))))
    constructor
    · calc s.score1 = _ := (hk.1).symm
        _ = _ := (hm.1).symm
        _ = _ := (hw.1).symm
        _ = _ := (hl.1).symm
        _ = _ := (hr.1).symm
        _ ≤ _ := hsc.1
    · calc s.score2 = _ := (hk.2).symm
        _ = _ := (hm.2).symm
        _ = _ := (hw.2).symm
        _ = _ := (hl.2).symm
        _ = _ := (hr.2).symm
        _ ≤ _ := hsc.2
  · have hk := (pongStages_scores keyUp keyDown s).1
    exact ⟨le_of_eq hk.1.symm, le_of_eq hk.2.symm⟩

theorem stepGame_scores_mono (pf : List Cell → List Cell → Cell) (phase : GamePhase)
    (d1 d2 : Direction) (timer chan : Bool) (s : SnakeState) :
    s.score1 ≤ (stepGame pf phase d1 d2 timer chan s).state.score1 ∧
    s.score2 ≤ (stepGame pf phase d1 d2 timer chan s).state.score2 := by
  unfold stepGame
  split_ifs <;> simp <;> omega

/-- Claim C6: scores are monotonically non-decreasing across simulation steps in
both games; a paddle-game scoring event increments exactly one score and resets
only the ball; a chase-game eating event increments the eater's score, replaces
only the food (placed by `placeFood` on the committed bodies), and the
simulation continues: the phase stays `playing` and the step timer keeps
running. -/
theorem C6_scoring_resets_only_transient :
    (∀ (phase : GamePhase) (keyUp keyDown : Bool) (speed : ℚ) (rnd : Bool) (s : PongState),
        s.score1 ≤ (updateGame phase keyUp keyDown speed rnd s).score1 ∧
        s.score2 ≤ (updateGame phase keyUp keyDown speed rnd s).score2) ∧
    (∀ (speed : ℚ) (rnd : Bool) (s : PongState), s.ballX < 0 →
        pongScoreStep speed rnd s = resetBall speed 1 rnd { s with score2 := s.score2 + 1 }) ∧
    (∀ (speed : ℚ) (rnd : Bool) (s : PongState), 0 ≤ s.ballX → s.ballX > CANVAS_WIDTH →
        pongScoreStep speed rnd s = resetBall speed (-1) rnd { s with score1 := s.score1 + 1 }) ∧
    (∀ (pf : List Cell → List Cell → Cell) (phase : GamePhase) (d1 d2 : Direction)
        (timer chan : Bool) (s : SnakeState),
        s.score1 ≤ (stepGame pf phase d1 d2 timer chan s).state.score1 ∧
        s.score2 ≤ (stepGame pf phase d1 d2 timer chan s).state.score2) ∧
    (∀ (pf : List Cell → List Cell → Cell) (d1 d2 : Direction) (timer chan : Bool)
        (s : SnakeState), snakeCrash d1 d2 s = false → proposedHead s.snake1 d1 = s.food →
        (stepGame pf .playing d1 d2 timer chan s).state.score1 = s.score1 + 1 ∧
        (stepGame pf .playing d1 d2 timer chan s).state.food =
          pf (stepGame pf .playing d1 d2 timer chan s).state.snake1
            (stepGame pf .playing d1 d2 timer chan s).state.snake2 ∧
        (stepGame pf .playing d1 d2 timer chan s).phaseRef = .playing ∧
        (stepGame pf .playing d1 d2 timer chan s).timerOn = timer) := by
  refine ⟨updateGame_scores_mono, ?_, ?_, stepGame_scores_mono, ?_⟩
  · intro speed rnd s h
    unfold pongScoreStep
    rw [if_pos h]
    norm_num [resetBall, CANVAS_WIDTH]
  · intro speed rnd s h0 h
    unfold pongScoreStep
    have h1 : ¬ s.ballX < 0 := by linarith
    rw [if_neg h1, if_pos h]
  · intro pf d1 d2 timer chan s hcr hfood
    simp [stepGame, hcr, hfood]

/-- Witness for C6's conditional parts: a ball past the left edge scores for
the right side and only the ball is reset. -/
theorem C6_scoring_witness :
    pongScoreStep 5 true { pongInitState with ballX := -1 } =
      resetBall 5 1 true { { pongInitState with ballX := -1 } with score2 :=
        { pongInitState with ballX := -1 }.score2 + 1 } :=
  C6_scoring_resets_only_transient.2.1 5 true { pongInitState with ballX := -1 } (by norm_num)

/-! ## C9: session teardown -/

/-- Claim C9 counterexample: ending a chase-game session in mid-countdown
returns it to idle, but the scheduled countdown tick is still pending
(`endSession` never clears `countdownTimerRef`), and when it fires after the
teardown it flips the phase to `playing` — so a countdown tick does fire after
the session has returned to idle, refuting the claim. -/
theorem C9_pending_countdown_counterexample :
    (snakeEndSession snakeSessionMid).phase = GamePhase.idle ∧
    (snakeEndSession snakeSessionMid).role = Role.none ∧
    (snakeEndSession snakeSessionMid).countdownPending = some 0 ∧
    (snakeFireCountdown (snakeEndSession snakeSessionMid)).1.phase = GamePhase.playing := by
  refine ⟨rfl, rfl, rfl, ?_⟩
  decide

/-- Claim C9 amended: ending a session at any point does stop the simulation
step timer (chase game) or frame loop (paddle game), closes channel and
transport, resets role to `none`, phase to `idle` and connection flags — but
the countdown timeout is NOT cancelled: a pending countdown tick survives the
teardown and can still fire afterwards.  Such a late tick no longer broadcasts
anything and never starts the simulation timer or loop (the role is `none` by
then), but it still mutates the countdown display and, on reaching zero, the
phase.  In the chase game the world state is not cleared beyond its phase
field; the paddle game resets its world state fully. -/
theorem C9_amended_teardown :
    (∀ s : SnakeSession,
        (snakeEndSession s).stepTimer = false ∧
        (snakeEndSession s).chanOpen = false ∧
        (snakeEndSession s).peerOpen = false ∧
        (snakeEndSession s).connected = false ∧
        (snakeEndSession s).role = .none ∧
        (snakeEndSession s).phase = .idle ∧
        (snakeEndSession s).state.phase = .idle ∧
        (snakeEndSession s).state.snake1 = s.state.snake1 ∧
        (snakeEndSession s).state.score1 = s.state.score1 ∧
        (snakeEndSession s).countdownPending = s.countdownPending ∧
        (snakeFireCountdown (snakeEndSession s)).2 = [] ∧
        (snakeFireCountdown (snakeEndSession s)).1.stepTimer = false) ∧
    (∀ s : PongFullSession,
        (pongEndSession s).gameLoop = false ∧
        (pongEndSession s).chanOpen = false ∧
        (pongEndSession s).peerOpen = false ∧
        (pongEndSession s).connected = false ∧
        (pongEndSession s).role = .none ∧
        (pongEndSession s).phase = .idle ∧
        (pongEndSession s).gs = pongResetState s.ballSpeed ∧
        (pongEndSession s).countdownPending = s.countdownPending ∧
        (pongFireCountdown (pongEndSession s)).2 = [] ∧
        (pongFireCountdown (pongEndSession s)).1.gameLoop = false) := by
  constructor
  · intro s
    refine ⟨rfl, rfl, rfl, rfl, rfl, rfl, rfl, rfl, rfl, rfl, ?_, ?_⟩ <;>
      (cases hcp : s.countdownPending with
        | none => simp [snakeFireCountdown, snakeEndSession, hcp]
        | some v => simp [snakeFireCountdown, snakeEndSession, hcp]; split_ifs <;> simp)
  · intro s
    refine ⟨rfl, rfl, rfl, rfl, rfl, rfl, rfl, rfl, ?_, ?_⟩ <;>
      (cases hcp : s.countdownPending with
        | none => simp [pongFireCountdown, pongEndSession, hcp]
        | some v => simp [pongFireCountdown, pongEndSession, hcp]; split_ifs <;> simp)

/-! ## C8: unknown and malformed messages -/

/-- Claim C8 counterexample: a syntactically valid message of known type
`gameState` whose required `state` field is missing makes the guest handler
throw a `TypeError` (destructuring `undefined`), after overwriting the cached
world state — the message is neither dropped nor free of unhandled faults,
refuting the claim. -/
theorem C8_missing_state_counterexample :
    pongHandleRaw .guest pongWireSession0 (.jobj [("type", .jstr "gameState")])
      = .error .typeError ∧
    snakeHandleRaw .guest snakeWireSession0 (.jobj [("type", .jstr "gameState")])
      = .error .typeError := by
  exact ⟨rfl, rfl⟩

/-- Claim C8 amended: a message whose type tag is unknown is dropped by both
games' handlers without touching session state, as are an `input` message with
no `direction` field, a `settings` message with no numeric `ballSpeed`, and a
`phase` message with no recognized `phase` value; but a guest-side `gameState`
message missing its `state` payload raises an uncaught `TypeError` (as do an
unparseable payload inside `JSON.parse` and a `null` message), so "never
fatal" holds only for the guarded branches. -/
theorem C8_amended_unknown_dropped :
    (∀ (role : Role) (sess : PongWireSession) (msg tv : JVal),
        jgetE msg "type" = .ok tv →
        jStrictEq tv (.jstr "gameState") = false → jStrictEq tv (.jstr "input") = false →
        jStrictEq tv (.jstr "hostFace") = false → jStrictEq tv (.jstr "guestFace") = false →
        jStrictEq tv (.jstr "phase") = false → jStrictEq tv (.jstr "settings") = false →
        pongHandleRaw role sess msg = .ok sess) ∧
    (∀ (role : Role) (sess : SnakeWireSession) (msg tv : JVal),
        jgetE msg "type" = .ok tv →
        jStrictEq tv (.jstr "gameState") = false → jStrictEq tv (.jstr "input") = false →
        jStrictEq tv (.jstr "phase") = false →
        snakeHandleRaw role sess msg = .ok sess) ∧
    (∀ sess : PongWireSession,
        pongHandleRaw .host sess (.jobj [("type", .jstr "input")]) = .ok sess) ∧
    (∀ (sess : PongWireSession) (role : Role),
        pongHandleRaw role sess (.jobj [("type", .jstr "settings")]) = .ok sess) ∧
    (∀ (sess : PongWireSession) (role : Role),
        pongHandleRaw role sess (.jobj [("type", .jstr "phase")]) = .ok sess) := by
  refine ⟨?_, ?_, ?_, ?_, ?_⟩
  · intro role sess msg tv hJ h1 h2 h3 h4 h5 h6
    simp [pongHandleRaw, hJ, h1, h2, h3, h4, h5, h6]
  · intro role sess msg tv hJ h1 h2 h3
    simp [snakeHandleRaw, hJ, h1, h2, h3]
  · intro sess
    rfl
  · intro sess role
    rfl
  · intro sess role
    rfl

/-- Witness for C8's amended statement: an unknown message type at a concrete
session is dropped unchanged. -/
theorem C8_amended_witness :
    pongHandleRaw .host pongWireSession0 (.jobj [("type", .jstr "zzz")])
      = .ok pongWireSession0 :=
  C8_amended_unknown_dropped.1 .host pongWireSession0 (.jobj [("type", .jstr "zzz")])
    (.jstr "zzz") rfl rfl rfl rfl rfl rfl rfl

/-! ## C7: a zero-input step never produces an illegal state -/

theorem pongMoveBall_fields (t : PongState) :
    (pongMoveBall t).ballX = t.ballX + t.ballVX ∧ (pongMoveBall t).ballY = t.ballY + t.ballVY ∧
    (pongMoveBall t).paddle1Y = t.paddle1Y ∧ (pongMoveBall t).paddle2Y = t.paddle2Y := by
  unfold pongMoveBall
  exact ⟨rfl, rfl, rfl, rfl⟩

theorem pongWallBounce_fields (t : PongState) :
    (pongWallBounce t).ballX = t.ballX ∧ (pongWallBounce t).ballY = t.ballY ∧
    (pongWallBounce t).paddle1Y = t.paddle1Y ∧ (pongWallBounce t).paddle2Y = t.paddle2Y := by
  unfold pongWallBounce
  split_ifs <;> exact ⟨rfl, rfl, rfl, rfl⟩

theorem pongLeftPaddleBounce_fields (t : PongState) :
    (pongLeftPaddleBounce t).ballY = t.ballY ∧
    (pongLeftPaddleBounce t).paddle1Y = t.paddle1Y ∧
    (pongLeftPaddleBounce t).paddle2Y = t.paddle2Y := by
  unfold pongLeftPaddleBounce
  split_ifs <;> exact ⟨rfl, rfl, rfl⟩

theorem pongRightPaddleBounce_fields (t : PongState) :
    (pongRightPaddleBounce t).ballY = t.ballY ∧
    (pongRightPaddleBounce t).paddle1Y = t.paddle1Y ∧
    (pongRightPaddleBounce t).paddle2Y = t.paddle2Y := by
  unfold pongRightPaddleBounce
  split_ifs <;> exact ⟨rfl, rfl, rfl⟩

theorem pongScoreStep_fields (speed : ℚ) (rnd : Bool) (t : PongState) :
    (pongScoreStep speed rnd t).paddle1Y = t.paddle1Y ∧
    (pongScoreStep speed rnd t).paddle2Y = t.paddle2Y ∧
    ((pongScoreStep speed rnd t).ballY = CANVAS_HEIGHT / 2 ∨
      (pongScoreStep speed rnd t).ballY = t.ballY) ∧
    ((pongScoreStep speed rnd t).ballX = CANVAS_WIDTH / 2 ∨
      ((pongScoreStep speed rnd t).ballX = t.ballX ∧ ¬ t.ballX < 0 ∧
        ¬ t.ballX > CANVAS_WIDTH)) := by
  unfold pongScoreStep resetBall
  split_ifs with hx1 hx2 <;> norm_num [CANVAS_WIDTH] <;> split_ifs <;>
    first
    | rfl
    | simp_all

theorem pong_step_zero_input_legal (phase : GamePhase) (speed : ℚ) (rnd : Bool)
    (s : PongState) (h : PongLegal s) :
    0 ≤ (updateGame phase false false speed rnd s).paddle1Y ∧
    (updateGame phase false false speed rnd s).paddle1Y ≤ CANVAS_HEIGHT - PADDLE_HEIGHT ∧
    0 ≤ (updateGame phase false false speed rnd s).paddle2Y ∧
    (updateGame phase false false speed rnd s).paddle2Y ≤ CANVAS_HEIGHT - PADDLE_HEIGHT ∧
    0 ≤ (updateGame phase false false speed rnd s).ballX ∧
    (updateGame phase false false speed rnd s).ballX ≤ CANVAS_WIDTH ∧
    0 ≤ (updateGame phase false false speed rnd s).ballY ∧
    (updateGame phase false false speed rnd s).ballY ≤ CANVAS_HEIGHT ∧
    0 ≤ (updateGame phase false false speed rnd s).score1 ∧
    0 ≤ (updateGame phase false false speed rnd s).score2 := by
  obtain ⟨h1, h2, h3, h4, h5, h6, h7, h8, h9, h10, h11, h12, h13⟩ := h
  have hH : CANVAS_HEIGHT = (560 : ℚ) := rfl
  have hvy := abs_le.mp h11
  rw [hH] at h12
  norm_num [BALL_SIZE] at h12 h13
  have hylo : 0 ≤ s.ballY + s.ballVY := by
    by_cases hy : s.ballY < 8
    · linarith [h13 hy]
    · push_neg at hy
      linarith
  have hyhi : s.ballY + s.ballVY ≤ 560 := by
    by_cases hy : 552 < s.ballY
    · linarith [h12 hy]
    · push_neg at hy
      rw [hH] at h8
      linarith
  have hkeys : pongApplyKeys false false s = s := rfl
  by_cases hph : phase = GamePhase.playing
  · have hup : updateGame phase false false speed rnd s
        = pongScoreStep speed rnd (pongRightPaddleBounce (pongLeftPaddleBounce
          (pongWallBounce (pongMoveBall s)))) := by
      simp [updateGame, hkeys, hph]
    rw [hup]
    obtain ⟨hm1, hm2, hm3, hm4⟩ := pongMoveBall_fields s
    obtain ⟨hw1, hw2, hw3, hw4⟩ := pongWallBounce_fields (pongMoveBall s)
    obtain ⟨hl2, hl3, hl4⟩ := pongLeftPaddleBounce_fields (pongWallBounce (pongMoveBall s))
    obtain ⟨hr2, hr3, hr4⟩ :=
      pongRightPaddleBounce_fields (pongLeftPaddleBounce (pongWallBounce (pongMoveBall s)))
    obtain ⟨hp1, hp2, hpy, hpx⟩ := pongScoreStep_fields speed rnd
      (pongRightPaddleBounce (pongLeftPaddleBounce (pongWallBounce (pongMoveBall s))))
    obtain ⟨hq1, hq2⟩ := pongScoreStep_scores_mono speed rnd
      (pongRightPaddleBounce (pongLeftPaddleBounce (pongWallBounce (pongMoveBall s))))
    obtain ⟨hsm1, hsm2⟩ := (pongStages_scores false false s).2.1
    obtain ⟨hsw1, hsw2⟩ := (pongStages_scores false false (pongMoveBall s)).2.2.1
    obtain ⟨hsl1, hsl2⟩ :=
      (pongStages_scores false false (pongWallBounce (pongMoveBall s))).2.2.2.1
    obtain ⟨hsr1, hsr2⟩ :=
      (pongStages_scores false false
        (pongLeftPaddleBounce (pongWallBounce (pongMoveBall s)))).2.2.2.2
    refine ⟨?_, ?_, ?_, ?_, ?_, ?_, ?_, ?_, ?_, ?_⟩
    · rw [hp1, hr3, hl3, hw3, hm3]
      exact h1
    · rw [hp1, hr3, hl3, hw3, hm3]
      exact h2
    · rw [hp2, hr4, hl4, hw4, hm4]
      exact h3
    · rw [hp2, hr4, hl4, hw4, hm4]
      exact h4
    · rcases hpx with hx | ⟨hx, hxlo, hxhi⟩
      · rw [hx]
        norm_num [CANVAS_WIDTH]
      · rw [hx]
        linarith
    · rcases hpx with hx | ⟨hx, hxlo, hxhi⟩
      · rw [hx]
        norm_num [CANVAS_WIDTH]
      · rw [hx]
        linarith
    · rcases hpy with hy | hy
      · rw [hy]
        norm_num [CANVAS_HEIGHT]
      · rw [hy, hr2, hl2, hw2, hm2]
        exact hylo
    · rcases hpy with hy | hy
      · rw [hy]
        norm_num [CANVAS_HEIGHT]
      · rw [hy, hr2, hl2, hw2, hm2, hH]
        exact hyhi
    · omega
    · omega
  · have hup : updateGame phase false false speed rnd s = s := by
      simp [updateGame, hkeys, hph]
    rw [hup]
    exact ⟨h1, h2, h3, h4, h5, h6, h7, h8, h9, h10⟩

theorem inGrid_of_not_hitsWall {c : Cell} (h : hitsWall c = false) : inGrid c := by
  simp only [hitsWall, decide_eq_false_iff_not] at h
  push_neg at h
  exact ⟨h.1, h.2.1, h.2.2.1, h.2.2.2⟩

theorem stepGame_zero_input_legal (pf : List Cell → List Cell → Cell)
    (d1 d2 : Direction) (timer chan : Bool) (s : SnakeState) (hleg : SnakeLegal s) :
    (∀ c ∈ (stepGame pf .playing d1 d2 timer chan s).state.snake1, inGrid c) ∧
    (∀ c ∈ (stepGame pf .playing d1 d2 timer chan s).state.snake2, inGrid c) ∧
    0 ≤ (stepGame pf .playing d1 d2 timer chan s).state.score1 ∧
    0 ≤ (stepGame pf .playing d1 d2 timer chan s).state.score2 := by
  obtain ⟨hs1, hs2, hsc1, hsc2⟩ := hleg
  cases hcr : snakeCrash d1 d2 s with
  | true =>
    rw [stepGame_crash pf d1 d2 timer chan s hcr]
    exact ⟨hs1, hs2, hsc1, hsc2⟩
  | false =>
    have hcr' := hcr
    simp only [snakeCrash, Bool.or_eq_false_iff] at hcr'
    obtain ⟨⟨⟨⟨⟨⟨hw1, hw2⟩, _⟩, _⟩, _⟩, _⟩, _⟩ := hcr'
    have hn1 := inGrid_of_not_hitsWall hw1
    have hn2 := inGrid_of_not_hitsWall hw2
    have hmem1 : ∀ c ∈ proposedHead s.snake1 d1 :: s.snake1, inGrid c := by
      intro c hc
      rcases List.mem_cons.mp hc with rfl | hc
      · exact hn1
      · exact hs1 c hc
    have hmem2 : ∀ c ∈ proposedHead s.snake2 d2 :: s.snake2, inGrid c := by
      intro c hc
      rcases List.mem_cons.mp hc with rfl | hc
      · exact hn2
      · exact hs2 c hc
    simp only [stepGame, hcr]
    norm_num
    refine ⟨?_, ?_, ?_, ?_⟩
    · intro c hc
      split_ifs at hc
      · exact hmem1 c hc
      · exact hmem1 c (List.Sublist.subset (List.dropLast_sublist _) hc)
    · intro c hc
      split_ifs at hc
      · exact hmem2 c hc
      · exact hmem2 c (List.Sublist.subset (List.dropLast_sublist _) hc)
    · split_ifs <;> omega
    · split_ifs <;> omega

/-- Claim C7: from a legal world state with no control input queued (no keys
held, commanded directions equal to the state's), one simulation step never
produces an illegal state: paddle and body-segment positions stay within the
playfield, the ball stays within the canvas (or is reset to its center within
the same step), and no score goes negative. -/
theorem C7_zero_input_step_stays_legal :
    (∀ (phase : GamePhase) (speed : ℚ) (rnd : Bool) (s : PongState), PongLegal s →
        0 ≤ (updateGame phase false false speed rnd s).paddle1Y ∧
        (updateGame phase false false speed rnd s).paddle1Y ≤ CANVAS_HEIGHT - PADDLE_HEIGHT ∧
        0 ≤ (updateGame phase false false speed rnd s).paddle2Y ∧
        (updateGame phase false false speed rnd s).paddle2Y ≤ CANVAS_HEIGHT - PADDLE_HEIGHT ∧
        0 ≤ (updateGame phase false false speed rnd s).ballX ∧
        (updateGame phase false false speed rnd s).ballX ≤ CANVAS_WIDTH ∧
        0 ≤ (updateGame phase false false speed rnd s).ballY ∧
        (updateGame phase false false speed rnd s).ballY ≤ CANVAS_HEIGHT ∧
        0 ≤ (updateGame phase false false speed rnd s).score1 ∧
        0 ≤ (updateGame phase false false speed rnd s).score2) ∧
    (∀ (pf : List Cell → List Cell → Cell) (d1 d2 : Direction) (timer chan : Bool)
        (s : SnakeState), SnakeLegal s → d1 = s.dir1 → d2 = s.dir2 →
        (∀ c ∈ (stepGame pf .playing d1 d2 timer chan s).state.snake1, inGrid c) ∧
        (∀ c ∈ (stepGame pf .playing d1 d2 timer chan s).state.snake2, inGrid c) ∧
        0 ≤ (stepGame pf .playing d1 d2 timer chan s).state.score1 ∧
        0 ≤ (stepGame pf .playing d1 d2 timer chan s).state.score2) :=
  ⟨pong_step_zero_input_legal,
    fun pf d1 d2 timer chan s hleg _ _ => stepGame_zero_input_legal pf d1 d2 timer chan s hleg⟩

theorem pongInitState_legal : PongLegal pongInitState := by
  unfold PongLegal pongInitState
  norm_num [CANVAS_WIDTH, CANVAS_HEIGHT, PADDLE_HEIGHT, BALL_SIZE, DEFAULT_BALL_SPEED]
  rw [abs_of_nonneg (by norm_num)]
  norm_num

/-- Witness for C7 at the initial paddle-game state with the step actually
taken while playing. -/
theorem C7_zero_input_witness :
    0 ≤ (updateGame .playing false false DEFAULT_BALL_SPEED true pongInitState).paddle1Y :=
  (C7_zero_input_step_stays_legal.1 .playing DEFAULT_BALL_SPEED true pongInitState
    pongInitState_legal).1

end Pong2P
